import Mathlib

/-!
Verification of the Rectangular Element Core (lib/element.c).

Shallow embedding: the C `real` (IEEE double) is modelled by ℚ, so that all
geometry is exact and decidable.  Stateful C functions that mutate an
`Element *` become pure functions `Element → Element`; the in-place update of
a `ConnectionPoint` array becomes a function update on `ℕ → ConnectionPoint`.
-/

namespace Dia

/-- A 2D point, `Point` from geometry.h (fields `x`, `y`). -/
structure Point where
  x : ℚ
  y : ℚ
deriving DecidableEq, Repr

/-- `point_sub(p, q)`: componentwise subtraction `p - q`. -/
def point_sub (p q : Point) : Point :=
  ⟨p.x - q.x, p.y - q.y⟩

/-- Modelled from the spec: the `HandleId` enumeration (handle.h is not part
of the sources; the spec names `RESIZE_NW .. RESIZE_SE` plus the endpoint and
custom identities that the resize engines reject). -/
inductive HandleId where
  | RESIZE_NW
  | RESIZE_N
  | RESIZE_NE
  | RESIZE_W
  | RESIZE_E
  | RESIZE_SW
  | RESIZE_S
  | RESIZE_SE
  | MOVE_STARTPOINT
  | MOVE_ENDPOINT
  | CUSTOM1
  | CUSTOM2
  | CUSTOM3
  | CUSTOM4
  | CUSTOM5
  | CUSTOM6
  | CUSTOM7
  | CUSTOM8
  | CUSTOM9
deriving DecidableEq, Repr

/-- The guard `HANDLE_RESIZE_NW <= id && id <= HANDLE_RESIZE_SE` used by both
resize engines (`g_return_val_if_fail` in `element_move_handle` and
`g_return_if_fail` in `element_move_handle_aspect`). -/
def HandleId.isResize : HandleId → Bool
  | RESIZE_NW | RESIZE_N | RESIZE_NE | RESIZE_W
  | RESIZE_E | RESIZE_SW | RESIZE_S | RESIZE_SE => true
  | _ => false

/-- A resize handle; only the fields `element_update_handles` writes
(`id` and `pos`) are modelled. -/
structure Handle where
  id : HandleId
  pos : Point
deriving DecidableEq, Repr

/-- The `Element` struct: `corner`, `width`, `height`, plus the two fields of
the embedded `DiaObject` base that the functions under verification read or
write (`object.position`, touched by `_element_change_swap`, and
`object.num_connections`, the loop bound of
`element_update_connections_directions`). -/
structure Element where
  corner : Point
  width : ℚ
  height : ℚ
  obj_position : Point
  num_connections : ℕ
deriving DecidableEq, Repr

/-- `element_move_handle(elem, id, to, cp, reason, modifiers)`:
free per-handle resize.  `cp`, `reason` and `modifiers` are ignored by the C
code and omitted here; ids outside `RESIZE_NW..RESIZE_SE` fail the guard (or
hit the warning default of the switch) and leave the element unchanged.
The two axis rules of a corner handle run in source order; neither reads a
field the other wrote, mirrored here by threading the intermediate element. -/
def element_move_handle (elem : Element) (id : HandleId) (toPt : Point) : Element :=
  let p := point_sub toPt elem.corner
  match id with
  | HandleId.RESIZE_NW =>
      let e1 := if toPt.x < elem.corner.x + elem.width then
          { elem with corner := ⟨elem.corner.x + p.x, elem.corner.y⟩,
                      width := elem.width - p.x }
        else elem
      if toPt.y < e1.corner.y + e1.height then
          { e1 with corner := ⟨e1.corner.x, e1.corner.y + p.y⟩,
                    height := e1.height - p.y }
        else e1
  | HandleId.RESIZE_N =>
      if toPt.y < elem.corner.y + elem.height then
          { elem with corner := ⟨elem.corner.x, elem.corner.y + p.y⟩,
                      height := elem.height - p.y }
        else elem
  | HandleId.RESIZE_NE =>
      let e1 := if p.x > 0 then { elem with width := p.x } else elem
      if toPt.y < e1.corner.y + e1.height then
          { e1 with corner := ⟨e1.corner.x, e1.corner.y + p.y⟩,
                    height := e1.height - p.y }
        else e1
  | HandleId.RESIZE_W =>
      if toPt.x < elem.corner.x + elem.width then
          { elem with corner := ⟨elem.corner.x + p.x, elem.corner.y⟩,
                      width := elem.width - p.x }
        else elem
  | HandleId.RESIZE_E =>
      if p.x > 0 then { elem with width := p.x } else elem
  | HandleId.RESIZE_SW =>
      let e1 := if toPt.x < elem.corner.x + elem.width then
          { elem with corner := ⟨elem.corner.x + p.x, elem.corner.y⟩,
                      width := elem.width - p.x }
        else elem
      if p.y > 0 then { e1 with height := p.y } else e1
  | HandleId.RESIZE_S =>
      if p.y > 0 then { elem with height := p.y } else elem
  | HandleId.RESIZE_SE =>
      let e1 := if p.x > 0 then { elem with width := p.x } else elem
      if p.y > 0 then { e1 with height := p.y } else e1
  | _ => elem

/-- The `new_width` candidate assigned by the switch of
`element_move_handle_aspect`; handles that leave it unset keep the
initialisation value 0. -/
def aspect_new_width (width : ℚ) (p : Point) : HandleId → ℚ
  | HandleId.RESIZE_NW => width - p.x
  | HandleId.RESIZE_NE => p.x
  | HandleId.RESIZE_W => width - p.x
  | HandleId.RESIZE_E => p.x
  | HandleId.RESIZE_SW => width - p.x
  | HandleId.RESIZE_SE => p.x
  | _ => 0

/-- The `new_height` candidate assigned by the switch of
`element_move_handle_aspect`; handles that leave it unset keep the
initialisation value 0. -/
def aspect_new_height (height : ℚ) (p : Point) : HandleId → ℚ
  | HandleId.RESIZE_NW => height - p.y
  | HandleId.RESIZE_N => height - p.y
  | HandleId.RESIZE_NE => height - p.y
  | HandleId.RESIZE_SW => p.y
  | HandleId.RESIZE_S => p.y
  | HandleId.RESIZE_SE => p.y
  | _ => 0

/-- The `move_x` anchor fraction assigned by the switch of
`element_move_handle_aspect`. -/
def aspect_move_x : HandleId → ℚ
  | HandleId.RESIZE_NW => 1
  | HandleId.RESIZE_N => 1/2
  | HandleId.RESIZE_NE => 0
  | HandleId.RESIZE_W => 1
  | HandleId.RESIZE_E => 0
  | HandleId.RESIZE_SW => 1
  | HandleId.RESIZE_S => 1/2
  | HandleId.RESIZE_SE => 0
  | _ => 0

/-- The `move_y` anchor fraction assigned by the switch of
`element_move_handle_aspect`. -/
def aspect_move_y : HandleId → ℚ
  | HandleId.RESIZE_NW => 1
  | HandleId.RESIZE_N => 1
  | HandleId.RESIZE_NE => 1
  | HandleId.RESIZE_W => 1/2
  | HandleId.RESIZE_E => 1/2
  | HandleId.RESIZE_SW => 0
  | HandleId.RESIZE_S => 0
  | HandleId.RESIZE_SE => 0
  | _ => 0

/-- `element_move_handle_aspect(elem, id, to, aspect_ratio)`: aspect-locked
resize.  Non-resize ids fail the entry guard and change nothing.  The
per-handle candidate sizes (`new_width`, `new_height`, initialised to 0) and
anchor fractions (`move_x`, `move_y`) follow the switch; then the conformance
step, the clamp of both to zero when either is negative, and the corner
translation, exactly as in the source. -/
def element_move_handle_aspect (elem : Element) (id : HandleId) (toPt : Point)
    (aspect : ℚ) : Element :=
  if HandleId.isResize id then
    let p := point_sub toPt elem.corner
    let width := elem.width
    let height := elem.height
    let nw : ℚ := aspect_new_width width p id
    let nh : ℚ := aspect_new_height height p id
    let mx : ℚ := aspect_move_x id
    let my : ℚ := aspect_move_y id
    let nw2 : ℚ := if nw > nh * aspect then nw else nh * aspect
    let nh2 : ℚ := if nw > nh * aspect then nw / aspect else nh
    let nw3 : ℚ := if nw2 < 0 ∨ nh2 < 0 then 0 else nw2
    let nh3 : ℚ := if nw2 < 0 ∨ nh2 < 0 then 0 else nh2
    { elem with
      corner := ⟨elem.corner.x - (nw3 - width) * mx,
                 elem.corner.y - (nh3 - height) * my⟩,
      width := nw3,
      height := nh3 }
  else elem

/-- Modelled from the spec: direction bitmask constant `DIR_NONE`
(connectionpoint.h is not part of the sources; the spec describes the mask as
a subset of N, E, S, W with `ALL` and `NONE` aliases). -/
def DIR_NONE : ℕ := 0

/-- Modelled from the spec: direction bit for north (bit 0). -/
def DIR_NORTH : ℕ := 1

/-- Modelled from the spec: direction bit for east (bit 1). -/
def DIR_EAST : ℕ := 2

/-- Modelled from the spec: direction bit for south (bit 2). -/
def DIR_SOUTH : ℕ := 4

/-- Modelled from the spec: direction bit for west (bit 3). -/
def DIR_WEST : ℕ := 8

/-- Modelled from the spec: all four cardinal bits set. -/
def DIR_ALL : ℕ := DIR_NORTH ||| DIR_EAST ||| DIR_SOUTH ||| DIR_WEST

/-- Modelled from the spec: the flag value marking the main (center)
connection point, compared for equality in
`element_update_connections_directions`. -/
def CP_FLAGS_MAIN : ℕ := 3

/-- A connection point; only the fields the element core reads or writes are
modelled: `pos` and `directions` (written) and `flags` (observed). -/
structure ConnectionPoint where
  pos : Point
  directions : ℕ
  flags : ℕ
deriving DecidableEq, Repr

/-- `element_update_handles(elem)`: write the eight resize-handle slots with
their canonical ids and positions.  The handle array is modelled as a map
from indices; slots 0..7 are overwritten, others are untouched. -/
def element_update_handles (elem : Element) (hs : ℕ → Handle) : ℕ → Handle :=
  fun i =>
    match i with
    | 0 => { id := HandleId.RESIZE_NW,
             pos := ⟨elem.corner.x, elem.corner.y⟩ }
    | 1 => { id := HandleId.RESIZE_N,
             pos := ⟨elem.corner.x + elem.width / 2, elem.corner.y⟩ }
    | 2 => { id := HandleId.RESIZE_NE,
             pos := ⟨elem.corner.x + elem.width, elem.corner.y⟩ }
    | 3 => { id := HandleId.RESIZE_W,
             pos := ⟨elem.corner.x, elem.corner.y + elem.height / 2⟩ }
    | 4 => { id := HandleId.RESIZE_E,
             pos := ⟨elem.corner.x + elem.width, elem.corner.y + elem.height / 2⟩ }
    | 5 => { id := HandleId.RESIZE_SW,
             pos := ⟨elem.corner.x, elem.corner.y + elem.height⟩ }
    | 6 => { id := HandleId.RESIZE_S,
             pos := ⟨elem.corner.x + elem.width / 2, elem.corner.y + elem.height⟩ }
    | 7 => { id := HandleId.RESIZE_SE,
             pos := ⟨elem.corner.x + elem.width, elem.corner.y + elem.height⟩ }
    | _ => hs i

/-- `element_update_connections_rectangle(elem, cps)`: write the positions
and the fixed direction constants of the nine canonical connection points
(indices 0..8); other slots and the `flags` fields are untouched. -/
def element_update_connections_rectangle (elem : Element)
    (cps : ℕ → ConnectionPoint) : ℕ → ConnectionPoint :=
  fun i =>
    match i with
    | 0 => { cps 0 with
             pos := elem.corner,
             directions := DIR_NORTH ||| DIR_WEST }
    | 1 => { cps 1 with
             pos := ⟨elem.corner.x + elem.width / 2, elem.corner.y⟩,
             directions := DIR_NORTH }
    | 2 => { cps 2 with
             pos := ⟨elem.corner.x + elem.width, elem.corner.y⟩,
             directions := DIR_NORTH ||| DIR_EAST }
    | 3 => { cps 3 with
             pos := ⟨elem.corner.x, elem.corner.y + elem.height / 2⟩,
             directions := DIR_WEST }
    | 4 => { cps 4 with
             pos := ⟨elem.corner.x + elem.width, elem.corner.y + elem.height / 2⟩,
             directions := DIR_EAST }
    | 5 => { cps 5 with
             pos := ⟨elem.corner.x, elem.corner.y + elem.height⟩,
             directions := DIR_SOUTH ||| DIR_WEST }
    | 6 => { cps 6 with
             pos := ⟨elem.corner.x + elem.width / 2, elem.corner.y + elem.height⟩,
             directions := DIR_SOUTH }
    | 7 => { cps 7 with
             pos := ⟨elem.corner.x + elem.width, elem.corner.y + elem.height⟩,
             directions := DIR_SOUTH ||| DIR_EAST }
    | 8 => { cps 8 with
             pos := ⟨elem.corner.x + elem.width / 2, elem.corner.y + elem.height / 2⟩,
             directions := DIR_ALL }
    | _ => cps i

/-- The loop body of `element_update_connections_directions` for one
connection point: reset the mask to `DIR_NONE`, OR in the cardinal bits by
comparing the point with the element center, then OR in `DIR_ALL` when the
flags equal `CP_FLAGS_MAIN`. -/
def cp_update_dirs (center : Point) (cp : ConnectionPoint) : ConnectionPoint :=
  let d1 : ℕ := DIR_NONE
  let d2 : ℕ :=
    if cp.pos.x > center.x then d1 ||| DIR_EAST
    else if cp.pos.x < center.x then d1 ||| DIR_WEST
    else d1
  let d3 : ℕ :=
    if cp.pos.y > center.y then d2 ||| DIR_SOUTH
    else if cp.pos.y < center.y then d2 ||| DIR_NORTH
    else d2
  let d4 : ℕ := if cp.flags = CP_FLAGS_MAIN then d3 ||| DIR_ALL else d3
  { cp with directions := d4 }

/-- `element_update_connections_directions(elem, cps)`: apply the loop body
to every index below `object.num_connections`.  The C loop body for index
`i` touches only `cps[i]`, so the loop is a pointwise map. -/
def element_update_connections_directions (elem : Element)
    (cps : ℕ → ConnectionPoint) : ℕ → ConnectionPoint :=
  fun i =>
    if i < elem.num_connections then
      cp_update_dirs ⟨elem.corner.x + elem.width / 2,
                      elem.corner.y + elem.height / 2⟩ (cps i)
    else cps i

/-- The undo record `struct _DiaElementObjectChange`: the stored pose triple.
The `element` pointer is modelled by passing the element explicitly to the
swap. -/
structure DiaElementObjectChange where
  corner : Point
  width : ℚ
  height : ℚ
deriving DecidableEq, Repr

/-- `_element_change_swap(ec, obj)`: exchanges `ec->corner` with
`elem->object.position` (not with `elem->corner`), `ec->width` with
`elem->width` and `ec->height` with `elem->height`.  Returns the
(record, element) pair after the three swaps. -/
def element_change_swap (ec : DiaElementObjectChange) (elem : Element) :
    DiaElementObjectChange × Element :=
  ({ ec with corner := elem.obj_position,
             width := elem.width,
             height := elem.height },
   { elem with obj_position := ec.corner,
               width := ec.width,
               height := ec.height })

/-- `dia_element_object_change_apply`: delegates to the swap. -/
def dia_element_object_change_apply (ec : DiaElementObjectChange)
    (elem : Element) : DiaElementObjectChange × Element :=
  element_change_swap ec elem

/-- `dia_element_object_change_revert`: delegates to the swap. -/
def dia_element_object_change_revert (ec : DiaElementObjectChange)
    (elem : Element) : DiaElementObjectChange × Element :=
  element_change_swap ec elem

/-- `element_change_new(corner, width, height, elem)`: allocates a record
storing the element's current pose; the three scalar parameters are never
read. -/
def element_change_new (prev_corner : Point) (prev_width prev_height : ℚ)
    (elem : Element) : DiaElementObjectChange :=
  { corner := elem.corner,
    width := elem.width,
    height := elem.height }

/-- Modelled from the spec: the XML attribute store that `element_load`
consumes through `object_find_attribute` / `data_point` / `data_real`
(external interfaces of the base object, not part of the sources).  An
absent attribute is `none`. -/
structure ObjectNode where
  elem_corner : Option Point
  elem_width : Option ℚ
  elem_height : Option ℚ

/-- `element_load(elem, obj_node, ctx)`: after the delegated base load, set
each of corner, width, height to its default and then overwrite it from the
attribute when present; no error is reported (the function is total). -/
def element_load (elem : Element) (node : ObjectNode) : Element :=
  let e1 := { elem with corner := ⟨0, 0⟩ }
  let e2 := match node.elem_corner with
    | some pt => { e1 with corner := pt }
    | none => e1
  let e3 := { e2 with width := 1 }
  let e4 := match node.elem_width with
    | some w => { e3 with width := w }
    | none => e3
  let e5 := { e4 with height := 1 }
  match node.elem_height with
    | some h => { e5 with height := h }
    | none => e5

/-- C1: `element_move_handle` implements the per-handle free-resize rules:
a `RESIZE_NW` drag to a target at or beyond the opposite corner leaves the
element unchanged; a `RESIZE_SE` drag with both components of
`p = to - corner` positive sets `width = p.x` and `height = p.y` with the
corner unchanged; a `RESIZE_E` drag with `p.x ≤ 0` leaves the element
unchanged. -/
theorem element_move_handle_free_rules :
    (∀ (e : Element) (t : Point),
        e.corner.x + e.width ≤ t.x → e.corner.y + e.height ≤ t.y →
        element_move_handle e HandleId.RESIZE_NW t = e) ∧
    (∀ (e : Element) (t : Point),
        0 < (point_sub t e.corner).x → 0 < (point_sub t e.corner).y →
        element_move_handle e HandleId.RESIZE_SE t =
          { e with width := (point_sub t e.corner).x,
                   height := (point_sub t e.corner).y }) ∧
    (∀ (e : Element) (t : Point),
        (point_sub t e.corner).x ≤ 0 →
        element_move_handle e HandleId.RESIZE_E t = e) := by
  refine ⟨fun e t h1 h2 => ?_, fun e t h1 h2 => ?_, fun e t h1 => ?_⟩
  · simp [element_move_handle, not_lt.mpr h1, not_lt.mpr h2]
  · simp [element_move_handle, h1, h2]
  · simp [element_move_handle, not_lt.mpr h1]

/-- Witness for C1 at the spec's three concrete inputs: the NW clamp at
`corner=(10,10), w=4, h=4, to=(20,20)`; the SE grow at
`corner=(0,0), w=2, h=2, to=(5,3)`; the E no-op at
`corner=(0,0), w=5, h=5, to=(-1,2)`. -/
theorem element_move_handle_free_rules_witness :
    element_move_handle ⟨⟨10,10⟩,4,4,⟨10,10⟩,9⟩ HandleId.RESIZE_NW ⟨20,20⟩ =
      ⟨⟨10,10⟩,4,4,⟨10,10⟩,9⟩ ∧
    element_move_handle ⟨⟨0,0⟩,2,2,⟨0,0⟩,9⟩ HandleId.RESIZE_SE ⟨5,3⟩ =
      ⟨⟨0,0⟩,5,3,⟨0,0⟩,9⟩ ∧
    element_move_handle ⟨⟨0,0⟩,5,5,⟨0,0⟩,9⟩ HandleId.RESIZE_E ⟨-1,2⟩ =
      ⟨⟨0,0⟩,5,5,⟨0,0⟩,9⟩ := by
  refine ⟨?_, ?_, ?_⟩
  · exact element_move_handle_free_rules.1 _ _ (by norm_num) (by norm_num)
  · have h := element_move_handle_free_rules.2.1 ⟨⟨0,0⟩,2,2,⟨0,0⟩,9⟩ ⟨5,3⟩
      (by norm_num [point_sub]) (by norm_num [point_sub])
    rw [h]; norm_num [point_sub]
  · exact element_move_handle_free_rules.2.2 _ _ (by norm_num [point_sub])

/-- C2: for every element with nonnegative width and height, every handle id
and every target point, after `element_move_handle` both width and height are
still nonnegative (in particular for every id in `RESIZE_NW..RESIZE_SE`). -/
theorem element_move_handle_nonneg (e : Element) (id : HandleId) (t : Point)
    (hw : 0 ≤ e.width) (hh : 0 ≤ e.height) :
    0 ≤ (element_move_handle e id t).width ∧
    0 ≤ (element_move_handle e id t).height := by
  cases id <;>
    simp only [element_move_handle, point_sub] <;>
    first
      | exact ⟨hw, hh⟩
      | (split_ifs <;> constructor <;> simp_all <;> linarith)

/-- Witness for C2 at the SE grow example. -/
theorem element_move_handle_nonneg_witness :
    0 ≤ (element_move_handle ⟨⟨0,0⟩,2,2,⟨0,0⟩,9⟩ HandleId.RESIZE_SE ⟨5,3⟩).width ∧
    0 ≤ (element_move_handle ⟨⟨0,0⟩,2,2,⟨0,0⟩,9⟩ HandleId.RESIZE_SE ⟨5,3⟩).height :=
  element_move_handle_nonneg ⟨⟨0,0⟩,2,2,⟨0,0⟩,9⟩ HandleId.RESIZE_SE ⟨5,3⟩
    (by norm_num) (by norm_num)

/-- C3: `element_move_handle_aspect` translates the corner by the anchor
fractions so that the anchor point stays fixed on both axes, and the spec's
two scenarios hold: NW with `corner=(0,0), w=10, h=10, aspect=2, to=(2,6)`
gives `corner=(2,6), w=8, h=4`; NW with `corner=(0,0), w=2, h=2, aspect=1,
to=(3,3)` clamps to `corner=(2,2), w=0, h=0`. -/
theorem element_move_handle_aspect_spec :
    (∀ (e : Element) (id : HandleId) (t : Point) (a : ℚ),
        HandleId.isResize id = true →
        (element_move_handle_aspect e id t a).corner.x
            + aspect_move_x id * (element_move_handle_aspect e id t a).width
          = e.corner.x + aspect_move_x id * e.width ∧
        (element_move_handle_aspect e id t a).corner.y
            + aspect_move_y id * (element_move_handle_aspect e id t a).height
          = e.corner.y + aspect_move_y id * e.height) ∧
    element_move_handle_aspect ⟨⟨0,0⟩,10,10,⟨0,0⟩,9⟩ HandleId.RESIZE_NW ⟨2,6⟩ 2 =
      ⟨⟨2,6⟩,8,4,⟨0,0⟩,9⟩ ∧
    element_move_handle_aspect ⟨⟨0,0⟩,2,2,⟨0,0⟩,9⟩ HandleId.RESIZE_NW ⟨3,3⟩ 1 =
      ⟨⟨2,2⟩,0,0,⟨0,0⟩,9⟩ := by
  refine ⟨fun e id t a hid => ?_, ?_, ?_⟩
  · simp only [element_move_handle_aspect, hid, if_true]
    constructor <;> ring1
  · norm_num [element_move_handle_aspect, point_sub, HandleId.isResize,
      aspect_new_width, aspect_new_height, aspect_move_x, aspect_move_y]
  · norm_num [element_move_handle_aspect, point_sub, HandleId.isResize,
      aspect_new_width, aspect_new_height, aspect_move_x, aspect_move_y]

/-- Witness for C3: the anchor-fixedness conjunct applied at the first
aspect scenario. -/
theorem element_move_handle_aspect_spec_witness :
    (element_move_handle_aspect ⟨⟨0,0⟩,10,10,⟨0,0⟩,9⟩ HandleId.RESIZE_NW ⟨2,6⟩ 2).corner.x
        + aspect_move_x HandleId.RESIZE_NW
          * (element_move_handle_aspect ⟨⟨0,0⟩,10,10,⟨0,0⟩,9⟩ HandleId.RESIZE_NW ⟨2,6⟩ 2).width
      = (⟨⟨0,0⟩,10,10,⟨0,0⟩,9⟩ : Element).corner.x
        + aspect_move_x HandleId.RESIZE_NW * (⟨⟨0,0⟩,10,10,⟨0,0⟩,9⟩ : Element).width :=
  (element_move_handle_aspect_spec.1 ⟨⟨0,0⟩,10,10,⟨0,0⟩,9⟩ HandleId.RESIZE_NW ⟨2,6⟩ 2 rfl).1

/-- C4 (counterexample): the undo swap does not exchange the record's corner
with the element's `corner` field.  In the spec's scenario (snapshot at
`corner=(1,1), w=3, h=4`, element mutated to `corner=(5,5), w=7, h=8`, the
object position kept equal to the corner), `revert` leaves the element's
corner at `(5,5)` instead of restoring `(1,1)`. -/
theorem element_change_revert_corner_cex :
    ((dia_element_object_change_revert
        (element_change_new ⟨1,1⟩ 3 4 ⟨⟨1,1⟩,3,4,⟨1,1⟩,9⟩)
        ⟨⟨5,5⟩,7,8,⟨5,5⟩,9⟩).2).corner ≠ ⟨1,1⟩ := by
  simp [dia_element_object_change_revert, element_change_swap, element_change_new,
        Point.mk.injEq]

/-- C4 (amended): each call of apply or revert performs the same three
exchanges: record width with element width, record height with element
height, and record corner with the element's embedded base-object position
field; the element's own corner field is untouched.  In the spec's scenario
read through the object position, `revert` makes the element hold width 3,
height 4 and position `(1,1)` while the record comes to hold `((5,5),7,8)`,
and a second `revert` swaps back. -/
theorem element_change_swap_exchanges (ec : DiaElementObjectChange) (e : Element) :
    dia_element_object_change_apply ec e = dia_element_object_change_revert ec e ∧
    (dia_element_object_change_revert ec e).1 = ⟨e.obj_position, e.width, e.height⟩ ∧
    (dia_element_object_change_revert ec e).2 =
      { e with obj_position := ec.corner, width := ec.width, height := ec.height } ∧
    (dia_element_object_change_revert ec e).2.corner = e.corner ∧
    dia_element_object_change_revert
        (element_change_new ⟨1,1⟩ 3 4 ⟨⟨1,1⟩,3,4,⟨1,1⟩,9⟩) ⟨⟨5,5⟩,7,8,⟨5,5⟩,9⟩
      = (⟨⟨5,5⟩,7,8⟩, ⟨⟨5,5⟩,3,4,⟨1,1⟩,9⟩) ∧
    dia_element_object_change_revert ⟨⟨5,5⟩,7,8⟩ ⟨⟨5,5⟩,3,4,⟨1,1⟩,9⟩
      = (⟨⟨1,1⟩,3,4⟩, ⟨⟨5,5⟩,7,8,⟨5,5⟩,9⟩) :=
  ⟨rfl, rfl, rfl, rfl, rfl, rfl⟩

/-- C5: `element_change_new` stores the element's current pose and ignores
its `prev_corner`, `prev_width`, `prev_height` parameters entirely. -/
theorem element_change_new_stores_current (pc : Point) (pw ph : ℚ) (e : Element) :
    (element_change_new pc pw ph e).corner = e.corner ∧
    (element_change_new pc pw ph e).width = e.width ∧
    (element_change_new pc pw ph e).height = e.height ∧
    ∀ (pc2 : Point) (pw2 ph2 : ℚ),
      element_change_new pc pw ph e = element_change_new pc2 pw2 ph2 e :=
  ⟨rfl, rfl, rfl, fun _ _ _ => rfl⟩

/-- C6: after `element_update_handles` and
`element_update_connections_rectangle`, connection points 0..7 coincide
pointwise with the eight resize handles (ids in the order NW, N, NE, W, E,
SW, S, SE), point 8 is the center, and the direction masks are the fixed
constants (corners the two adjacent cardinals, edge midpoints the single
outward cardinal, the center `ALL`). -/
theorem element_update_connections_rectangle_canonical (e : Element)
    (hs : ℕ → Handle) (cps : ℕ → ConnectionPoint) :
    (∀ i, i < 8 →
        (element_update_connections_rectangle e cps i).pos
          = (element_update_handles e hs i).pos) ∧
    (element_update_connections_rectangle e cps 8).pos
      = ⟨e.corner.x + e.width / 2, e.corner.y + e.height / 2⟩ ∧
    ((element_update_handles e hs 0).id = HandleId.RESIZE_NW ∧
     (element_update_handles e hs 1).id = HandleId.RESIZE_N ∧
     (element_update_handles e hs 2).id = HandleId.RESIZE_NE ∧
     (element_update_handles e hs 3).id = HandleId.RESIZE_W ∧
     (element_update_handles e hs 4).id = HandleId.RESIZE_E ∧
     (element_update_handles e hs 5).id = HandleId.RESIZE_SW ∧
     (element_update_handles e hs 6).id = HandleId.RESIZE_S ∧
     (element_update_handles e hs 7).id = HandleId.RESIZE_SE) ∧
    ((element_update_connections_rectangle e cps 0).directions = DIR_NORTH ||| DIR_WEST ∧
     (element_update_connections_rectangle e cps 1).directions = DIR_NORTH ∧
     (element_update_connections_rectangle e cps 2).directions = DIR_NORTH ||| DIR_EAST ∧
     (element_update_connections_rectangle e cps 3).directions = DIR_WEST ∧
     (element_update_connections_rectangle e cps 4).directions = DIR_EAST ∧
     (element_update_connections_rectangle e cps 5).directions = DIR_SOUTH ||| DIR_WEST ∧
     (element_update_connections_rectangle e cps 6).directions = DIR_SOUTH ∧
     (element_update_connections_rectangle e cps 7).directions = DIR_SOUTH ||| DIR_EAST ∧
     (element_update_connections_rectangle e cps 8).directions = DIR_ALL) := by
  refine ⟨fun i hi => ?_, rfl,
    ⟨rfl, rfl, rfl, rfl, rfl, rfl, rfl, rfl⟩,
    ⟨rfl, rfl, rfl, rfl, rfl, rfl, rfl, rfl, rfl⟩⟩
  interval_cases i <;> rfl

/-- Witness for C6: the pointwise-match conjunct at index 0 on a concrete
element. -/
theorem element_update_connections_rectangle_canonical_witness :
    (0 : ℕ) < 8 ∧
    (element_update_connections_rectangle ⟨⟨0,0⟩,2,2,⟨0,0⟩,9⟩
        (fun _ => ⟨⟨0,0⟩,0,0⟩) 0).pos
      = (element_update_handles ⟨⟨0,0⟩,2,2,⟨0,0⟩,9⟩
          (fun _ => ⟨HandleId.RESIZE_NW, ⟨0,0⟩⟩) 0).pos :=
  ⟨by decide,
   (element_update_connections_rectangle_canonical ⟨⟨0,0⟩,2,2,⟨0,0⟩,9⟩
      (fun _ => ⟨HandleId.RESIZE_NW, ⟨0,0⟩⟩) (fun _ => ⟨⟨0,0⟩,0,0⟩)).1 0 (by decide)⟩

/-- C7: after `element_update_connections_directions`, a point below
`num_connections` whose flags equal `CP_FLAGS_MAIN` has mask `DIR_ALL`; any
other such point carries the east bit iff it lies strictly east of the
center, the west bit iff strictly west, the south bit iff strictly south and
the north bit iff strictly north (no bit on equality); in particular the
mid-east point `corner+(w, h/2)` of an element with positive width gets the
mask `DIR_EAST` only. -/
theorem element_update_connections_directions_spec (e : Element)
    (cps : ℕ → ConnectionPoint) (i : ℕ) (hi : i < e.num_connections) :
    ((cps i).flags = CP_FLAGS_MAIN →
        (element_update_connections_directions e cps i).directions = DIR_ALL) ∧
    ((cps i).flags ≠ CP_FLAGS_MAIN →
        (((element_update_connections_directions e cps i).directions.testBit 1 ↔
            e.corner.x + e.width / 2 < (cps i).pos.x) ∧
         ((element_update_connections_directions e cps i).directions.testBit 3 ↔
            (cps i).pos.x < e.corner.x + e.width / 2) ∧
         ((element_update_connections_directions e cps i).directions.testBit 2 ↔
            e.corner.y + e.height / 2 < (cps i).pos.y) ∧
         ((element_update_connections_directions e cps i).directions.testBit 0 ↔
            (cps i).pos.y < e.corner.y + e.height / 2))) ∧
    ((cps i).flags ≠ CP_FLAGS_MAIN →
        (cps i).pos = ⟨e.corner.x + e.width, e.corner.y + e.height / 2⟩ →
        0 < e.width →
        (element_update_connections_directions e cps i).directions = DIR_EAST) := by
  simp only [element_update_connections_directions, if_pos hi, cp_update_dirs,
    gt_iff_lt]
  refine ⟨fun hm => ?_, fun hm => ?_, fun hm hpos hw => ?_⟩
  · simp only [hm, if_true, if_pos rfl]
    split_ifs <;> decide
  · simp only [if_neg hm]
    split_ifs <;>
      refine ⟨?_, ?_, ?_, ?_⟩ <;>
      first
        | exact iff_of_true (by decide) (by assumption)
        | exact iff_of_false (by decide) (by assumption)
        | exact iff_of_false (by decide) (lt_asymm (by assumption))
  · have hx : e.corner.x + e.width / 2 < (cps i).pos.x := by
      rw [hpos]; dsimp only; linarith
    have hy1 : ¬(e.corner.y + e.height / 2 < (cps i).pos.y) := by
      rw [hpos]; dsimp only; exact lt_irrefl _
    have hy2 : ¬((cps i).pos.y < e.corner.y + e.height / 2) := by
      rw [hpos]; dsimp only; exact lt_irrefl _
    simp only [if_pos hx, if_neg hy1, if_neg hy2, if_neg hm]
    decide

/-- Witness for C7: the spec's mid-east point of a 2x2 element at the origin
receives mask `DIR_EAST` only. -/
theorem element_update_connections_directions_spec_witness :
    (0 : ℕ) < 9 ∧
    ((fun _ : ℕ => (⟨⟨2,1⟩,0,0⟩ : ConnectionPoint)) 0).flags ≠ CP_FLAGS_MAIN ∧
    (element_update_connections_directions ⟨⟨0,0⟩,2,2,⟨0,0⟩,9⟩
        (fun _ => ⟨⟨2,1⟩,0,0⟩) 0).directions = DIR_EAST :=
  ⟨by decide, by decide,
   (element_update_connections_directions_spec ⟨⟨0,0⟩,2,2,⟨0,0⟩,9⟩
      (fun _ => ⟨⟨2,1⟩,0,0⟩) 0 (by decide)).2.2 (by decide)
      (by norm_num [Point.mk.injEq]) (by norm_num)⟩

/-- C8: applying the undo record twice consecutively restores both the
element and the record exactly: the swap is an involution. -/
theorem element_change_apply_involution (ec : DiaElementObjectChange) (e : Element) :
    dia_element_object_change_apply (dia_element_object_change_apply ec e).1
      (dia_element_object_change_apply ec e).2 = (ec, e) := rfl

/-- C9: `element_load` sets corner, width, height from the attributes when
present and substitutes the defaults `(0,0)`, `1.0`, `1.0` for each absent
attribute; it is total (no error is reported). -/
theorem element_load_defaults (e : Element) (node : ObjectNode) :
    (element_load e node).corner = node.elem_corner.getD ⟨0, 0⟩ ∧
    (element_load e node).width = node.elem_width.getD 1 ∧
    (element_load e node).height = node.elem_height.getD 1 := by
  rcases node with ⟨c, w, h⟩
  cases c <;> cases w <;> cases h <;>
    simp [element_load, Option.getD]

/-- C10: for every element, resize id, target and positive aspect ratio,
after `element_move_handle_aspect` the equation `width = height × aspect`
holds exactly in exact (rational) arithmetic; in the clamped case both sides
are zero. -/
theorem element_move_handle_aspect_ratio (e : Element) (id : HandleId)
    (t : Point) (a : ℚ) (hid : HandleId.isResize id = true) (ha : 0 < a) :
    (element_move_handle_aspect e id t a).width
      = (element_move_handle_aspect e id t a).height * a := by
  simp only [element_move_handle_aspect, hid, if_true]
  split_ifs with h1 h2 h3 <;>
    first
      | ring1
      | rw [div_mul_cancel₀ _ (ne_of_gt ha)]

/-- Witness for C10 at the first aspect scenario. -/
theorem element_move_handle_aspect_ratio_witness :
    (element_move_handle_aspect ⟨⟨0,0⟩,10,10,⟨0,0⟩,9⟩ HandleId.RESIZE_NW ⟨2,6⟩ 2).width
      = (element_move_handle_aspect ⟨⟨0,0⟩,10,10,⟨0,0⟩,9⟩ HandleId.RESIZE_NW ⟨2,6⟩ 2).height * 2 :=
  element_move_handle_aspect_ratio ⟨⟨0,0⟩,10,10,⟨0,0⟩,9⟩ HandleId.RESIZE_NW ⟨2,6⟩ 2
    rfl (by norm_num)

end Dia
